import Mathlib

/-!
Shallow embedding of the go-genai-sdk wrapper library (package genai_sdk).

The repository wraps the google.golang.org/genai provider SDK.  The provider
is an external collaborator: its operations are modelled as oracle functions
(parameters of the operations), while every piece of logic of this layer —
input validation, key resolution, text formatting, response reshaping, batch
sequencing — is translated from the Go source.

Conventions of the embedding:
* Go `(value, error)` returns become `Except` values; the spec's two error
  kinds are the `GenError` constructors `invalidArgument` (local validation,
  raised before any provider call) and `upstream` (provider failure or
  unusable provider response).  Error message strings are the Go ones.
* Every operation also returns the list of provider calls it issued, so that
  "before any network interaction" and "issues the same request" are
  statable.
* Go `nil` pointers become `Option`; scalar payloads (`float32` embedding
  values) are an arbitrary type `α`; opaque config objects are arbitrary
  types; streams are an arbitrary type `σ` produced by the provider oracle.
* The `GEMINI_API_KEY` environment variable is an explicit `env : String`
  parameter where the Go code reads it (`os.Getenv` yields `""` when unset).
-/

namespace GenaiSdk

/-- The spec's two error kinds: `invalidArgument` for locally detected bad
input, `upstream` for provider failures or unusable provider responses.
The message is the Go error string. -/
inductive GenError where
  | invalidArgument (msg : String)
  | upstream (msg : String)
deriving DecidableEq, Repr

/-- Go `fmt.Errorf("prefix: %w", err)`: the wrapped error keeps its kind and
gains a message prefix. -/
def GenError.wrap (pre : String) : GenError → GenError
  | .invalidArgument m => .invalidArgument (pre ++ m)
  | .upstream m => .upstream (pre ++ m)

/-- `Except.isOk` test used in statements. -/
def isOk {ε β : Type} : Except ε β → Bool
  | .ok _ => true
  | .error _ => false

/-! ## Embedding client (embedding.go) -/

/-- Constant `EmbeddingModel` of embedding.go. -/
def EmbeddingModel : String := "gemini-embedding-exp-03-07"

/-- Constant `EmbeddingDimension` of embedding.go. -/
def EmbeddingDimension : Nat := 768

/-- One element of `EmbedContentResponse.Embeddings` (`*genai.ContentEmbedding`
has a `Values []float32` field; scalars are abstracted as `α`). -/
structure ContentEmbedding (α : Type) where
  Values : List α
deriving DecidableEq, Repr

/-- The provider response of `Models.EmbedContent`: a list of (possibly nil)
content embeddings. -/
structure EmbedContentResponse (α : Type) where
  Embeddings : List (Option (ContentEmbedding α))
deriving DecidableEq, Repr

/-- A request issued to the provider's `Models.EmbedContent`: the model
identifier, the text (`genai.Text text`), and the pass-through config
(`*genai.EmbedContentConfig`, `none` for Go `nil`). -/
structure EmbedCall (ε : Type) where
  model : String
  text : String
  config : Option ε
deriving DecidableEq, Repr

/-- The provider's `Models.EmbedContent`: may error (`Except.error`), may
return a nil response (`Option.none`). -/
def EmbedProvider (α ε : Type) : Type :=
  EmbedCall ε → Except String (Option (EmbedContentResponse α))

/-- `GeminiEmbeddingClient`: holds the provider handle (modelled by its
behaviour) and a logger (not modelled: logging does not affect results).
Note: the Go struct has NO model field. -/
structure GeminiEmbeddingClient (α ε : Type) where
  client : EmbedProvider α ε

/-- The provider's `genai.NewClient` as used by the constructors: from the
API key in the client config to a provider handle or an error. -/
def EmbedNewClient (α ε : Type) : Type :=
  String → Except String (GeminiEmbeddingClient α ε)

/-- `NewGeminiEmbeddingClient(ctx, apiKey, modelName, logger)`:
fails when `apiKey` is empty (no environment fallback in the Go source);
computes the `modelName` default but never stores it (the struct has no
model field); otherwise delegates to `genai.NewClient`, wrapping its error. -/
def NewGeminiEmbeddingClient {α ε : Type} (newClient : EmbedNewClient α ε)
    (apiKey modelName : String) : Except GenError (GeminiEmbeddingClient α ε) :=
  if apiKey = "" then
    .error (.invalidArgument "API key is required")
  else
    -- Go: `if modelName == "" { modelName = EmbeddingModel }` — the result
    -- of this defaulting is dead: no later statement reads `modelName`.
    let _modelName := if modelName = "" then EmbeddingModel else modelName
    match newClient apiKey with
    | .error e => .error (.upstream ("failed to create Gemini client: " ++ e))
    | .ok c => .ok c

/-- `(*GeminiEmbeddingClient).Close`: nil-receiver safe no-op. -/
def EmbeddingClientClose {α ε : Type} :
    Option (GeminiEmbeddingClient α ε) → Unit :=
  fun _ => ()

/-- `(*GeminiEmbeddingClient).GenerateEmbedding(ctx, text, config)`:
empty text fails locally; otherwise one provider call to the constant
`EmbeddingModel`; nil/empty response data fails as upstream; otherwise the
first embedding's values.  Returns the result and the issued calls. -/
def GenerateEmbedding {α ε : Type} (es : GeminiEmbeddingClient α ε)
    (text : String) (config : Option ε) :
    Except GenError (List α) × List (EmbedCall ε) :=
  if text = "" then
    (.error (.invalidArgument "text cannot be empty"), [])
  else
    let call : EmbedCall ε := ⟨EmbeddingModel, text, config⟩
    match es.client call with
    | .error e =>
        (.error (.upstream ("failed to generate embedding: " ++ e)), [call])
    | .ok none =>
        (.error (.upstream "received empty embedding from API"), [call])
    | .ok (some resp) =>
        match resp.Embeddings with
        | [] => (.error (.upstream "received empty embedding from API"), [call])
        | none :: _ =>
            (.error (.upstream "received empty embedding values from API"), [call])
        | some ce :: _ =>
            match ce.Values with
            | [] =>
                (.error (.upstream "received empty embedding values from API"), [call])
            | v :: vs => (.ok (v :: vs), [call])

/-- The text loop of `GenerateUserPreferenceEmbedding`:
`for i, interest := range interests { if i > 0 { text += ", " }; text += interest }`. -/
def appendInterests : String → Nat → List String → String
  | text, _, [] => text
  | text, i, interest :: rest =>
      let text := if i > 0 then text ++ ", " ++ interest else text ++ interest
      appendInterests text (i + 1) rest

/-- The preferences loop of `GenerateUserPreferenceEmbedding`.  The Go code
ranges over a `map[string]string`; Go map iteration order is unspecified, so
the iteration sequence is the list argument here — the same map contents may
be presented in any order. -/
def appendPreferences (text : String) (prefs : List (String × String)) : String :=
  if prefs.length > 0 then
    prefs.foldl (fun t kv => t ++ kv.1 ++ ": " ++ kv.2 ++ "; ")
      (text ++ "\nPreferences: ")
  else text

/-- The text payload built by `GenerateUserPreferenceEmbedding` before
delegation, as a function of the interests slice and of the preference map's
iteration sequence. -/
def userPreferenceText (interests : List String)
    (prefs : List (String × String)) : String :=
  appendPreferences (appendInterests "User Interests: " 0 interests) prefs

/-- The text payload built by `GeneratePOIEmbedding`:
`Name: %s\nCategory: %s[\nDescription: %s]`. -/
def poiText (name description category : String) : String :=
  if description ≠ "" then
    "Name: " ++ name ++ "\nCategory: " ++ category ++ "\nDescription: " ++ description
  else
    "Name: " ++ name ++ "\nCategory: " ++ category

/-- The text payload built by `GenerateCityEmbedding`:
`City: %s, Country: %s[\nDescription: %s]`. -/
def cityText (name country description : String) : String :=
  let text := "City: " ++ name ++ ", Country: " ++ country
  if description ≠ "" then text ++ "\nDescription: " ++ description else text

/-- `GeneratePOIEmbedding(ctx, name, description, category)`: validates the
trimmed name, formats the POI text, delegates to `GenerateEmbedding` with a
nil config, wraps errors. -/
def GeneratePOIEmbedding {α ε : Type} (es : GeminiEmbeddingClient α ε)
    (name description category : String) :
    Except GenError (List α) × List (EmbedCall ε) :=
  if name.trim = "" then
    (.error (.invalidArgument "poi name cannot be empty"), [])
  else
    let text := poiText name description category
    let (r, calls) := GenerateEmbedding es text none
    match r with
    | .error e => (.error (e.wrap "failed to generate POI embedding: "), calls)
    | .ok v => (.ok v, calls)

/-- `GenerateCityEmbedding(ctx, name, country, description)`. -/
def GenerateCityEmbedding {α ε : Type} (es : GeminiEmbeddingClient α ε)
    (name country description : String) :
    Except GenError (List α) × List (EmbedCall ε) :=
  if name.trim = "" then
    (.error (.invalidArgument "city name cannot be empty"), [])
  else
    let text := cityText name country description
    let (r, calls) := GenerateEmbedding es text none
    match r with
    | .error e => (.error (e.wrap "failed to generate city embedding: "), calls)
    | .ok v => (.ok v, calls)

/-- `GenerateUserPreferenceEmbedding(ctx, interests, preferences)`: no local
validation; formats the preference text and delegates.  The `prefs` list is
the iteration sequence of the Go map (unspecified order). -/
def GenerateUserPreferenceEmbedding {α ε : Type} (es : GeminiEmbeddingClient α ε)
    (interests : List String) (prefs : List (String × String)) :
    Except GenError (List α) × List (EmbedCall ε) :=
  let text := userPreferenceText interests prefs
  let (r, calls) := GenerateEmbedding es text none
  match r with
  | .error e =>
      (.error (e.wrap "failed to generate user preference embedding: "), calls)
  | .ok v => (.ok v, calls)

/-- `GenerateQueryEmbedding(ctx, query)`: delegates directly. -/
def GenerateQueryEmbedding {α ε : Type} (es : GeminiEmbeddingClient α ε)
    (query : String) : Except GenError (List α) × List (EmbedCall ε) :=
  let (r, calls) := GenerateEmbedding es query none
  match r with
  | .error e => (.error (e.wrap "failed to generate query embedding: "), calls)
  | .ok v => (.ok v, calls)

/-- The loop body of `BatchGenerateEmbeddings`: sequential per-item
`GenerateEmbedding` with nil config, failing fast with the item's index in
the wrapped error. `i` is the index of the first element of `texts`. -/
def batchLoop {α ε : Type} (es : GeminiEmbeddingClient α ε) :
    List String → Nat → Except GenError (List (List α)) × List (EmbedCall ε)
  | [], _ => (.ok [], [])
  | t :: rest, i =>
      let (r, calls) := GenerateEmbedding es t none
      match r with
      | .error e =>
          (.error (e.wrap
            ("failed to generate embedding for text at index " ++ toString i ++ ": ")),
           calls)
      | .ok v =>
          let (r2, calls2) := batchLoop es rest (i + 1)
          match r2 with
          | .error e => (.error e, calls ++ calls2)
          | .ok vs => (.ok (v :: vs), calls ++ calls2)

/-- `BatchGenerateEmbeddings(ctx, texts)`: empty input fails locally;
otherwise the sequential fail-fast loop starting at index 0. -/
def BatchGenerateEmbeddings {α ε : Type} (es : GeminiEmbeddingClient α ε)
    (texts : List String) :
    Except GenError (List (List α)) × List (EmbedCall ε) :=
  if texts.length = 0 then
    (.error (.invalidArgument "no texts provided for batch embedding"), [])
  else
    batchLoop es texts 0

/-! ## Chat client (chat.go) -/

/-- `genai.Part` (only the `Text` field is used by this layer). -/
structure Part where
  Text : String
deriving DecidableEq, Repr

/-- `genai.Content` (only `Parts` is read; the Go pointer is assumed
non-nil as the source dereferences it unconditionally). -/
structure Content where
  Parts : List Part
deriving DecidableEq, Repr

/-- `genai.Candidate` (only `Content` is read). -/
structure Candidate where
  Content : Content
deriving DecidableEq, Repr

/-- `genai.GenerateContentResponse` (only `Candidates` is read). -/
structure GenerateContentResponse where
  Candidates : List Candidate
deriving DecidableEq, Repr

/-- A request issued to the provider's `Models.GenerateContent` or
`Models.GenerateContentStream`: model identifier, the prompt
(`genai.Text prompt`), and the pass-through `*genai.GenerateContentConfig`
(`none` for Go `nil`). -/
structure ChatCall (κ : Type) where
  model : String
  prompt : String
  config : Option κ
deriving DecidableEq, Repr

/-- The provider handle (`*genai.Client`) as used by the chat client:
`Models.GenerateContent` and `Models.GenerateContentStream` (the latter
returns an `iter.Seq2` stream, abstracted as `σ`). -/
structure ChatProviderHandle (κ σ : Type) where
  generateContent : ChatCall κ → Except String GenerateContentResponse
  generateContentStream : ChatCall κ → σ

/-- `GeminiChatClient`: provider handle plus the default model name. -/
structure GeminiChatClient (κ σ : Type) where
  client : ChatProviderHandle κ σ
  model : String

/-- The provider's `genai.NewClient` as called by `NewGeminiChatClient`:
from the API key placed in the client config to a handle or an error. -/
def ChatNewClient (κ σ : Type) : Type :=
  String → Except String (ChatProviderHandle κ σ)

/-- `NewGeminiChatClient(ctx, apiKey, modelName)`: an empty `apiKey` falls
back to `os.Getenv("GEMINI_API_KEY")` (the `env` parameter, `""` when
unset); an empty `modelName` defaults to `"gemini-1.5-flash"`; the provider
constructor error is returned unwrapped. -/
def NewGeminiChatClient {κ σ : Type} (newClient : ChatNewClient κ σ)
    (env : String) (apiKey modelName : String) :
    Except String (GeminiChatClient κ σ) :=
  let apiKey := if apiKey = "" then env else apiKey
  let modelName := if modelName = "" then "gemini-1.5-flash" else modelName
  match newClient apiKey with
  | .error e => .error e
  | .ok c => .ok ⟨c, modelName⟩

/-- `(*GeminiChatClient).GenerateResponse(ctx, prompt, config)`: one
provider call, the raw response passed through. -/
def GenerateResponse {κ σ : Type} (g : GeminiChatClient κ σ)
    (prompt : String) (config : Option κ) :
    Except GenError GenerateContentResponse × List (ChatCall κ) :=
  let call : ChatCall κ := ⟨g.model, prompt, config⟩
  match g.client.generateContent call with
  | .error e => (.error (.upstream e), [call])
  | .ok resp => (.ok resp, [call])

/-- `(*GeminiChatClient).GenerateContent(ctx, prompt, apiKey, config)`:
the `apiKey` argument is ignored (the Go source notes the client already
holds its key); no local prompt validation — the provider is always called;
the first candidate's first part's text is returned, else the error
`no content generated`. -/
def GenerateContent {κ σ : Type} (g : GeminiChatClient κ σ)
    (prompt apiKey : String) (config : Option κ) :
    Except GenError String × List (ChatCall κ) :=
  let call : ChatCall κ := ⟨g.model, prompt, config⟩
  match g.client.generateContent call with
  | .error e => (.error (.upstream e), [call])
  | .ok resp =>
      match resp.Candidates with
      | c :: _ =>
          match c.Content.Parts with
          | p :: _ => (.ok p.Text, [call])
          | [] => (.error (.upstream "no content generated"), [call])
      | [] => (.error (.upstream "no content generated"), [call])

/-- `(*GeminiChatClient).GenerateContentStream(ctx, prompt, config)`:
returns the provider's stream directly, never an error, after one provider
streaming call. -/
def GenerateContentStream {κ σ : Type} (g : GeminiChatClient κ σ)
    (prompt : String) (config : Option κ) :
    (Except GenError σ × List (ChatCall κ)) :=
  let call : ChatCall κ := ⟨g.model, prompt, config⟩
  (.ok (g.client.generateContentStream call), [call])

/-- `(*GeminiChatClient).GenerateContentStreamWithCache(ctx, prompt, config,
cacheKey)`: a non-empty `cacheKey` is only logged ("Cache key provided but
currently ignored in direct implementation"); the stream is produced exactly
as in `GenerateContentStream`.  The second component collects the log
records emitted. -/
def GenerateContentStreamWithCache {κ σ : Type} (g : GeminiChatClient κ σ)
    (prompt : String) (config : Option κ) (cacheKey : String) :
    (Except GenError σ × List (ChatCall κ)) × List String :=
  let log :=
    if cacheKey ≠ "" then
      ["Cache key provided but currently ignored in direct implementation: "
        ++ cacheKey]
    else []
  let call : ChatCall κ := ⟨g.model, prompt, config⟩
  ((.ok (g.client.generateContentStream call), [call]), log)

/-- `(*GeminiChatClient).Model()`. -/
def Model {κ σ : Type} (g : GeminiChatClient κ σ) : String :=
  g.model

/-- The provider conversation handle (`*genai.Chat`): `SendMessage` and
`SendMessageStream` on a message part's text. -/
structure ChatHandle (σ : Type) where
  sendMessage : String → Except String GenerateContentResponse
  sendMessageStream : String → σ

/-- `ChatSession`: owns exactly the provider conversation handle. -/
structure ChatSession (σ : Type) where
  chat : ChatHandle σ

/-- `(*ChatSession).SendMessage(ctx, message)`: no local validation — the
provider is always called with `genai.Part{Text: message}`; first
candidate's first part's text, else `no response content`.  The second
component lists the message texts forwarded to the provider. -/
def SendMessage {σ : Type} (cs : ChatSession σ) (message : String) :
    Except GenError String × List String :=
  match cs.chat.sendMessage message with
  | .error e => (.error (.upstream e), [message])
  | .ok result =>
      match result.Candidates with
      | c :: _ =>
          match c.Content.Parts with
          | p :: _ => (.ok p.Text, [message])
          | [] => (.error (.upstream "no response content"), [message])
      | [] => (.error (.upstream "no response content"), [message])

/-- `(*ChatSession).SendMessageStream(ctx, message)`: direct delegation. -/
def SendMessageStream {σ : Type} (cs : ChatSession σ) (message : String) : σ :=
  cs.chat.sendMessageStream message

/-! ## Live session (live.go) -/

/-- `LiveSession` wraps a possibly-nil provider session handle
(`session *genai.Session`); a nil `*LiveSession` receiver is the outer
`Option`. -/
structure LiveSessionData (π : Type) where
  session : Option π

/-- `(*LiveSession).Close()`: returns nil (`Option.none` here models a nil
Go error) when the receiver or its provider handle is nil; otherwise
delegates to the provider session's `Close`.  The wrapper mutates no state
of its own. -/
def LiveClose {π : Type} (providerClose : π → Option String)
    (s : Option (LiveSessionData π)) : Option String :=
  match s with
  | none => none
  | some d =>
      match d.session with
      | none => none
      | some ps => providerClose ps

/-! ## Concrete provider behaviours used at concrete inputs -/

/-- A provider embedding response carrying one single-value embedding. -/
def sampleEmbedResponse : EmbedContentResponse Int :=
  ⟨[some ⟨[1]⟩]⟩

/-- An embedding client whose provider always succeeds with
`sampleEmbedResponse`. -/
def esOk : GeminiEmbeddingClient Int Unit :=
  ⟨fun _ => .ok (some sampleEmbedResponse)⟩

/-- An embedding client whose provider replies with a response holding no
embeddings at all. -/
def esNoEmbeddings : GeminiEmbeddingClient Int Unit :=
  ⟨fun _ => .ok (some ⟨[]⟩)⟩

/-- An embedding-client provider constructor that always succeeds with
`esOk`. -/
def embedNewClientOk : EmbedNewClient Int Unit :=
  fun _ => .ok esOk

/-- A chat response whose first candidate's first part holds the text
`hi`. -/
def sampleChatResponse : GenerateContentResponse :=
  ⟨[⟨⟨[⟨"hi"⟩]⟩⟩]⟩

/-- A chat provider handle that always succeeds with `sampleChatResponse`
(streams are collapsed to `Unit`). -/
def chatHandleOk : ChatProviderHandle Unit Unit :=
  ⟨fun _ => .ok sampleChatResponse, fun _ => ()⟩

/-- A chat client over `chatHandleOk` with the model name used throughout
the repository's tests. -/
def gOk : GeminiChatClient Unit Unit :=
  ⟨chatHandleOk, "gemini-2.0-flash"⟩

/-- A chat provider constructor that always succeeds with `chatHandleOk`. -/
def chatNewClientOk : ChatNewClient Unit Unit :=
  fun _ => .ok chatHandleOk

/-- A chat provider constructor that fails exactly on an empty key — the
behaviour the repository's tests document for `genai.NewClient` when no
key reaches it. -/
def chatNewClientNeedsKey : ChatNewClient Unit Unit :=
  fun k => if k = "" then .error "api key required" else .ok chatHandleOk

/-- A chat session whose provider always replies with
`sampleChatResponse`. -/
def csOk : ChatSession Unit :=
  ⟨⟨fun _ => .ok sampleChatResponse, fun _ => ()⟩⟩

/-! ## Helper lemmas: which provider calls each operation issues -/

/-- Method `GenerateContent` always issues exactly one provider call, with
the client's model, the given prompt and the given config — also for the
empty prompt. -/
theorem generateContent_calls {κ σ : Type} (g : GeminiChatClient κ σ)
    (prompt apiKey : String) (config : Option κ) :
    (GenerateContent g prompt apiKey config).2 = [⟨g.model, prompt, config⟩] := by
  unfold GenerateContent
  rcases h : g.client.generateContent ⟨g.model, prompt, config⟩ with e | resp
  · simp [h]
  · rcases hc : resp.Candidates with _ | ⟨c, rest⟩
    · simp [h, hc]
    · rcases hp : c.Content.Parts with _ | ⟨p, ps⟩
      · simp [h, hc, hp]
      · simp [h, hc, hp]

/-- Method `SendMessage` always forwards the message to the provider —
also the empty message. -/
theorem sendMessage_calls {σ : Type} (cs : ChatSession σ) (message : String) :
    (SendMessage cs message).2 = [message] := by
  unfold SendMessage
  rcases h : cs.chat.sendMessage message with e | result
  · simp [h]
  · rcases hc : result.Candidates with _ | ⟨c, rest⟩
    · simp [h, hc]
    · rcases hp : c.Content.Parts with _ | ⟨p, ps⟩
      · simp [h, hc, hp]
      · simp [h, hc, hp]

/-- Method `GenerateEmbedding` issues no call on empty text, and exactly
one call — against the constant `EmbeddingModel` — otherwise. -/
theorem generateEmbedding_calls {α ε : Type} (es : GeminiEmbeddingClient α ε)
    (text : String) (config : Option ε) :
    (GenerateEmbedding es text config).2
      = if text = "" then [] else [⟨EmbeddingModel, text, config⟩] := by
  unfold GenerateEmbedding
  by_cases h : text = ""
  · simp [h]
  · simp only [h, if_false]
    rcases hp : es.client ⟨EmbeddingModel, text, config⟩ with e | _ | resp
    · simp [hp]
    · simp [hp]
    · rcases he : resp.Embeddings with _ | ⟨_ | ce, rest⟩
      · simp [hp, he]
      · simp [hp, he]
      · rcases hv : ce.Values with _ | ⟨v, vs⟩
        · simp [hp, he, hv]
        · simp [hp, he, hv]

/-- Appending on the right never shrinks a string. -/
theorem length_le_append (s t : String) : s.length ≤ (s ++ t).length := by
  rw [String.length_append]
  exact Nat.le_add_right _ _

/-- The interests loop only ever appends to its accumulator. -/
theorem appendInterests_length (l : List String) :
    ∀ (text : String) (i : Nat), text.length ≤ (appendInterests text i l).length := by
  induction l with
  | nil => intro text i; exact Nat.le_refl _
  | cons interest rest ih =>
      intro text i
      unfold appendInterests
      by_cases h : i > 0
      · simp only [h, if_true]
        exact Nat.le_trans (length_le_append text (", " ++ interest))
          (by rw [String.append_assoc]; exact ih _ _)
      · simp only [h, if_false]
        exact Nat.le_trans (length_le_append text interest) (ih _ _)

/-- The preferences fold only ever appends to its accumulator. -/
theorem prefsFold_length (prefs : List (String × String)) :
    ∀ text : String,
      text.length
        ≤ (prefs.foldl (fun t kv => t ++ kv.1 ++ ": " ++ kv.2 ++ "; ") text).length := by
  induction prefs with
  | nil => intro text; exact Nat.le_refl _
  | cons kv rest ih =>
      intro text
      simp only [List.foldl_cons]
      refine Nat.le_trans ?_ (ih _)
      calc text.length ≤ (text ++ kv.1).length := length_le_append _ _
        _ ≤ (text ++ kv.1 ++ ": ").length := length_le_append _ _
        _ ≤ (text ++ kv.1 ++ ": " ++ kv.2).length := length_le_append _ _
        _ ≤ (text ++ kv.1 ++ ": " ++ kv.2 ++ "; ").length := length_le_append _ _

/-- A string of positive length is not the empty string. -/
theorem ne_empty_of_pos_length (s : String) (h : 0 < s.length) : s ≠ "" := by
  intro he
  subst he
  exact absurd h (by decide)

/-- The user-preference payload keeps its leading `User Interests: `
block, so it is never the empty string. -/
theorem userPreferenceText_ne_empty (interests : List String)
    (prefs : List (String × String)) :
    userPreferenceText interests prefs ≠ "" := by
  apply ne_empty_of_pos_length
  have hlen : ("User Interests: " : String).length
      ≤ (userPreferenceText interests prefs).length := by
    unfold userPreferenceText appendPreferences
    by_cases h : prefs.length > 0
    · rw [if_pos h]
      refine Nat.le_trans (appendInterests_length interests _ 0) ?_
      exact Nat.le_trans (length_le_append _ "\nPreferences: ") (prefsFold_length prefs _)
    · rw [if_neg h]
      exact appendInterests_length interests _ 0
  exact Nat.lt_of_lt_of_le (by decide) hlen

/-- The POI payload starts with `Name: `, so it is never empty. -/
theorem poiText_ne_empty (name description category : String) :
    poiText name description category ≠ "" := by
  apply ne_empty_of_pos_length
  have hlen : ("Name: " : String).length
      ≤ (poiText name description category).length := by
    unfold poiText
    by_cases h : description ≠ ""
    · rw [if_pos h]
      calc ("Name: " : String).length
          ≤ ("Name: " ++ name).length := length_le_append _ _
        _ ≤ ("Name: " ++ name ++ "\nCategory: ").length := length_le_append _ _
        _ ≤ ("Name: " ++ name ++ "\nCategory: " ++ category).length := length_le_append _ _
        _ ≤ ("Name: " ++ name ++ "\nCategory: " ++ category ++ "\nDescription: ").length :=
            length_le_append _ _
        _ ≤ ("Name: " ++ name ++ "\nCategory: " ++ category ++ "\nDescription: "
              ++ description).length := length_le_append _ _
    · rw [if_neg h]
      calc ("Name: " : String).length
          ≤ ("Name: " ++ name).length := length_le_append _ _
        _ ≤ ("Name: " ++ name ++ "\nCategory: ").length := length_le_append _ _
        _ ≤ ("Name: " ++ name ++ "\nCategory: " ++ category).length := length_le_append _ _
  exact Nat.lt_of_lt_of_le (by decide) hlen

/-- The city payload starts with `City: `, so it is never empty. -/
theorem cityText_ne_empty (name country description : String) :
    cityText name country description ≠ "" := by
  apply ne_empty_of_pos_length
  have hlen : ("City: " : String).length
      ≤ (cityText name country description).length := by
    show ("City: " : String).length
      ≤ (if description ≠ "" then
          "City: " ++ name ++ ", Country: " ++ country ++ "\nDescription: " ++ description
        else "City: " ++ name ++ ", Country: " ++ country).length
    by_cases h : description ≠ ""
    · rw [if_pos h]
      calc ("City: " : String).length
          ≤ ("City: " ++ name).length := length_le_append _ _
        _ ≤ ("City: " ++ name ++ ", Country: ").length := length_le_append _ _
        _ ≤ ("City: " ++ name ++ ", Country: " ++ country).length := length_le_append _ _
        _ ≤ ("City: " ++ name ++ ", Country: " ++ country
              ++ "\nDescription: ").length := length_le_append _ _
        _ ≤ ("City: " ++ name ++ ", Country: " ++ country
              ++ "\nDescription: " ++ description).length := length_le_append _ _
    · rw [if_neg h]
      calc ("City: " : String).length
          ≤ ("City: " ++ name).length := length_le_append _ _
        _ ≤ ("City: " ++ name ++ ", Country: ").length := length_le_append _ _
        _ ≤ ("City: " ++ name ++ ", Country: " ++ country).length := length_le_append _ _
  exact Nat.lt_of_lt_of_le (by decide) hlen

/-- Method `GeneratePOIEmbedding` issues no call on a blank name, and
exactly one call carrying the POI text payload otherwise. -/
theorem poiEmbedding_calls {α ε : Type} (es : GeminiEmbeddingClient α ε)
    (name description category : String) :
    (GeneratePOIEmbedding es name description category).2
      = if name.trim = "" then []
        else [⟨EmbeddingModel, poiText name description category, none⟩] := by
  unfold GeneratePOIEmbedding
  by_cases h : name.trim = ""
  · rw [if_pos h, if_pos h]
  · rw [if_neg h, if_neg h]
    rcases hp : GenerateEmbedding es (poiText name description category) none with ⟨r, calls⟩
    have hc : calls = [⟨EmbeddingModel, poiText name description category, none⟩] := by
      have := generateEmbedding_calls es (poiText name description category) none
      rw [hp, if_neg (poiText_ne_empty name description category)] at this
      exact this
    cases r <;> simp [hp, hc]

/-- Method `GenerateCityEmbedding` issues no call on a blank name, and
exactly one call carrying the city text payload otherwise. -/
theorem cityEmbedding_calls {α ε : Type} (es : GeminiEmbeddingClient α ε)
    (name country description : String) :
    (GenerateCityEmbedding es name country description).2
      = if name.trim = "" then []
        else [⟨EmbeddingModel, cityText name country description, none⟩] := by
  unfold GenerateCityEmbedding
  by_cases h : name.trim = ""
  · rw [if_pos h, if_pos h]
  · rw [if_neg h, if_neg h]
    rcases hp : GenerateEmbedding es (cityText name country description) none with ⟨r, calls⟩
    have hc : calls = [⟨EmbeddingModel, cityText name country description, none⟩] := by
      have := generateEmbedding_calls es (cityText name country description) none
      rw [hp, if_neg (cityText_ne_empty name country description)] at this
      exact this
    cases r <;> simp [hp, hc]

/-- Method `GenerateUserPreferenceEmbedding` always issues exactly one call
carrying the user-preference text payload (the payload is never empty). -/
theorem userPreferenceEmbedding_calls {α ε : Type} (es : GeminiEmbeddingClient α ε)
    (interests : List String) (prefs : List (String × String)) :
    (GenerateUserPreferenceEmbedding es interests prefs).2
      = [⟨EmbeddingModel, userPreferenceText interests prefs, none⟩] := by
  unfold GenerateUserPreferenceEmbedding
  rcases hp : GenerateEmbedding es (userPreferenceText interests prefs) none with ⟨r, calls⟩
  have hc : calls = [⟨EmbeddingModel, userPreferenceText interests prefs, none⟩] := by
    have := generateEmbedding_calls es (userPreferenceText interests prefs) none
    rw [hp, if_neg (userPreferenceText_ne_empty interests prefs)] at this
    exact this
  cases r <;> simp [hp, hc]

/-- Method `GenerateQueryEmbedding` forwards the raw query: no call for the
empty query, one call carrying the query text otherwise. -/
theorem queryEmbedding_calls {α ε : Type} (es : GeminiEmbeddingClient α ε)
    (query : String) :
    (GenerateQueryEmbedding es query).2
      = if query = "" then [] else [⟨EmbeddingModel, query, none⟩] := by
  unfold GenerateQueryEmbedding
  rcases hp : GenerateEmbedding es query none with ⟨r, calls⟩
  have hc : calls = if query = "" then [] else [⟨EmbeddingModel, query, none⟩] := by
    have := generateEmbedding_calls es query none
    rw [hp] at this
    exact this
  cases r <;> simp [hp, hc]

/-- The provider calls of a sequential pass over `texts`, one
`GenerateEmbedding` per item. -/
def batchTrace {α ε : Type} (es : GeminiEmbeddingClient α ε) :
    List String → List (EmbedCall ε)
  | [] => []
  | t :: rest => (GenerateEmbedding es t none).2 ++ batchTrace es rest

/-- A successful batch loop produces one vector per input text and the
sequential trace of per-item calls. -/
theorem batchLoop_ok {α ε : Type} {es : GeminiEmbeddingClient α ε}
    {texts : List String} {i : Nat} {vs : List (List α)}
    {calls : List (EmbedCall ε)}
    (h : batchLoop es texts i = (.ok vs, calls)) :
    vs.length = texts.length ∧ calls = batchTrace es texts := by
  induction texts generalizing i vs calls with
  | nil =>
      simp only [batchLoop] at h
      obtain ⟨h1, h2⟩ := Prod.mk.injEq .. ▸ h
      cases h1
      cases h2
      exact ⟨rfl, rfl⟩
  | cons t rest ih =>
      rcases hge : GenerateEmbedding es t none with ⟨r, calls1⟩
      cases r with
      | error e0 => simp [batchLoop, hge] at h
      | ok v =>
          rcases hbl : batchLoop es rest (i + 1) with ⟨r2, calls2⟩
          cases r2 with
          | error e2 => simp [batchLoop, hge, hbl] at h
          | ok vs2 =>
              simp only [batchLoop, hge, hbl] at h
              obtain ⟨h1, h2⟩ := Prod.mk.injEq .. ▸ h
              obtain ⟨hl, hc⟩ := ih hbl
              cases h2
              have hv : vs = v :: vs2 := by
                cases h1
                rfl
              subst hv
              constructor
              · simp [List.length_cons, hl]
              · simp [batchTrace, hge, hc]

/-- A failing batch loop fails at the first failing item: all items before
some position `j` succeed, item `j` fails, the batch error wraps that item's
error with the absolute index `i + j`, and the trace covers exactly the
items up to and including `j`. -/
theorem batchLoop_error {α ε : Type} {es : GeminiEmbeddingClient α ε}
    {texts : List String} {i : Nat} {e : GenError} {calls : List (EmbedCall ε)}
    (h : batchLoop es texts i = (.error e, calls)) :
    ∃ j, ∃ hj : j < texts.length,
      (∀ k, ∀ hk : k < j,
        isOk (GenerateEmbedding es (texts.get ⟨k, Nat.lt_trans hk hj⟩) none).1 = true)
      ∧ (∃ e0, (GenerateEmbedding es (texts.get ⟨j, hj⟩) none).1 = .error e0
          ∧ e = e0.wrap ("failed to generate embedding for text at index "
                ++ toString (i + j) ++ ": "))
      ∧ calls = batchTrace es (texts.take (j + 1)) := by
  induction texts generalizing i e calls with
  | nil => simp [batchLoop] at h
  | cons t rest ih =>
      rcases hge : GenerateEmbedding es t none with ⟨r, calls1⟩
      cases r with
      | error e0 =>
          simp only [batchLoop, hge] at h
          obtain ⟨h1, h2⟩ := Prod.mk.injEq .. ▸ h
          refine ⟨0, Nat.succ_pos _, ?_, ⟨e0, ?_, ?_⟩, ?_⟩
          · intro k hk
            exact absurd hk (Nat.not_lt_zero k)
          · show (GenerateEmbedding es t none).1 = .error e0
            rw [hge]
          · cases h1
            rw [Nat.add_zero]
          · cases h2
            simp [batchTrace, hge]
      | ok v =>
          rcases hbl : batchLoop es rest (i + 1) with ⟨r2, calls2⟩
          cases r2 with
          | ok vs2 => simp [batchLoop, hge, hbl] at h
          | error e2 =>
              simp only [batchLoop, hge, hbl] at h
              obtain ⟨h1, h2⟩ := Prod.mk.injEq .. ▸ h
              obtain ⟨j, hj, hpre, ⟨e0, hitem, hwrap⟩, htrace⟩ := ih hbl
              refine ⟨j + 1, Nat.succ_lt_succ hj, ?_, ⟨e0, ?_, ?_⟩, ?_⟩
              · intro k hk
                cases k with
                | zero =>
                    show isOk (GenerateEmbedding es t none).1 = true
                    rw [hge]
                    rfl
                | succ k2 =>
                    exact hpre k2 (Nat.lt_of_succ_lt_succ hk)
              · exact hitem
              · cases h1
                rw [hwrap]
                have : i + 1 + j = i + (j + 1) := by omega
                rw [this]
              · cases h2
                have : (t :: rest).take (j + 1 + 1) = t :: rest.take (j + 1) := rfl
                rw [this]
                simp [batchTrace, hge, htrace]

/-! ## Claim theorems -/

/-- C1 is false on the code: with a provider whose response's first
candidate's first part is `hi`, `GenerateContent` on the empty prompt
succeeds with that text after issuing one provider call — it neither fails
with `InvalidArgument` nor stays local. -/
theorem C1_counterexample :
    (GenerateContent gOk "" "some-key" none).1 = .ok "hi"
      ∧ (GenerateContent gOk "" "some-key" none).2
          = [⟨"gemini-2.0-flash", "", none⟩] :=
  ⟨rfl, rfl⟩

/-- C1 (amended): only the embedding path validates empty input locally —
`GenerateEmbedding` on empty text fails with `InvalidArgument` and issues
no provider call, while `GenerateContent` and `SendMessage` perform no
local empty check and always forward the empty input to the provider. -/
theorem C1_amended_empty_input_validation {α ε κ σ : Type}
    (es : GeminiEmbeddingClient α ε) (config : Option ε)
    (g : GeminiChatClient κ σ) (apiKey : String) (cfg : Option κ)
    (cs : ChatSession σ) :
    GenerateEmbedding es "" config
        = (.error (.invalidArgument "text cannot be empty"), [])
      ∧ (GenerateContent g "" apiKey cfg).2 = [⟨g.model, "", cfg⟩]
      ∧ (SendMessage cs "").2 = [""] :=
  ⟨rfl, generateContent_calls g "" apiKey cfg, sendMessage_calls cs ""⟩

/-- C2 is false on the code at a concrete input: with the environment
variable holding `test-key` and an empty explicit argument, chat-client
construction succeeds through the environment fallback, but
embedding-client construction fails with `API key is required` — the
embedding constructor never consults the environment. -/
theorem C2_counterexample :
    isOk (NewGeminiChatClient chatNewClientNeedsKey "test-key" "" "") = true
      ∧ NewGeminiEmbeddingClient embedNewClientOk "" ""
          = .error (.invalidArgument "API key is required") :=
  ⟨rfl, rfl⟩

/-- The key the claim (and the chat constructor) resolves: the explicit
argument, or the `GEMINI_API_KEY` environment value when the argument is
empty. -/
def resolvedChatKey (apiKey env : String) : String :=
  if apiKey = "" then env else apiKey

/-- C2 (amended): the chat constructor passes exactly the
argument-or-environment key to the provider constructor (and fails when
that constructor fails, as it does on an empty key); the embedding
constructor performs no environment fallback — it succeeds exactly when
the explicit argument is non-empty and the provider constructor succeeds
on it. -/
theorem C2_amended_key_resolution {α ε κ σ : Type} :
    (∀ (nc : ChatNewClient κ σ) (env apiKey modelName : String),
        NewGeminiChatClient nc env apiKey modelName
          = Except.map
              (fun c =>
                ⟨c, if modelName = "" then "gemini-1.5-flash" else modelName⟩)
              (nc (resolvedChatKey apiKey env)))
      ∧ (∀ (nc : EmbedNewClient α ε) (apiKey modelName : String),
          isOk (NewGeminiEmbeddingClient nc apiKey modelName)
            = if apiKey = "" then false else isOk (nc apiKey))
      ∧ NewGeminiChatClient chatNewClientNeedsKey "" "" ""
          = .error "api key required" := by
  refine ⟨?_, ?_, rfl⟩
  · intro nc env apiKey modelName
    unfold NewGeminiChatClient resolvedChatKey
    rcases h : nc (if apiKey = "" then env else apiKey) with e | c
    · simp [h, Except.map]
    · simp [h, Except.map]
  · intro nc apiKey modelName
    unfold NewGeminiEmbeddingClient
    by_cases h : apiKey = ""
    · rw [if_pos h, if_pos h]
      rfl
    · rw [if_neg h, if_neg h]
      rcases hc : nc apiKey with e | c
      · simp [hc, isOk]
      · simp [hc, isOk]

/-- C7: the cache-key parameter of `GenerateContentStreamWithCache` never
changes the returned stream, the result, or the provider calls — they
coincide with `GenerateContentStream` on the same prompt and config for
every cache key; the parameter is only logged, and only when non-empty. -/
theorem C7_cache_key_no_effect {κ σ : Type} (g : GeminiChatClient κ σ)
    (prompt : String) (config : Option κ) (cacheKey : String) :
    (GenerateContentStreamWithCache g prompt config cacheKey).1
        = GenerateContentStream g prompt config
      ∧ (GenerateContentStreamWithCache g prompt config cacheKey).2
        = if cacheKey = "" then []
          else ["Cache key provided but currently ignored in direct implementation: "
                  ++ cacheKey] := by
  constructor
  · rfl
  · unfold GenerateContentStreamWithCache
    by_cases h : cacheKey = ""
    · simp [h]
    · simp [h]

/-- C9: closing a live session is safe on a nil receiver and on a session
whose provider handle is absent — both return a nil error without touching
the provider; the wrapper keeps no state of its own, so any repetition of
these calls returns the same nil error. -/
theorem C9_live_close_nil_safe {π : Type} (providerClose : π → Option String) :
    LiveClose providerClose none = none
      ∧ LiveClose providerClose (some ⟨none⟩) = none :=
  ⟨rfl, rfl⟩

/-- C10: the `apiKey` argument of `GenerateContent` never influences the
result or the issued provider request — any two argument values yield
identical outcomes on the same client, prompt and config (the client's
construction-time key is what the provider handle encapsulates). -/
theorem C10_generateContent_ignores_apiKey {κ σ : Type}
    (g : GeminiChatClient κ σ) (prompt k1 k2 : String) (config : Option κ) :
    GenerateContent g prompt k1 config = GenerateContent g prompt k2 config :=
  rfl

/-- C4: the code contradicts the claim.  The embedding constructor accepts
and even defaults the model-name parameter but never stores it —
construction is insensitive to it — and every embedding request carries the
constant `EmbeddingModel`; concretely, a client constructed with model name
`text-embedding-004` still issues its request for `hello` against
`gemini-embedding-exp-03-07`. -/
theorem C4_embedding_model_not_overridable :
    (∀ (α ε : Type) (nc : EmbedNewClient α ε) (apiKey m1 m2 : String),
        NewGeminiEmbeddingClient nc apiKey m1 = NewGeminiEmbeddingClient nc apiKey m2)
      ∧ (∀ (α ε : Type) (es : GeminiEmbeddingClient α ε) (text : String)
            (config : Option ε),
          (GenerateEmbedding es text config).2
            = if text = "" then [] else [⟨EmbeddingModel, text, config⟩])
      ∧ Except.map (fun es => (GenerateEmbedding es "hello" (none : Option Unit)).2)
            (NewGeminiEmbeddingClient embedNewClientOk "key" "text-embedding-004")
          = .ok [⟨"gemini-embedding-exp-03-07", "hello", none⟩] := by
  refine ⟨?_, ?_, rfl⟩
  · intro α ε nc apiKey m1 m2
    rfl
  · intro α ε es text config
    exact generateEmbedding_calls es text config

/-- C5 is false on the code at a concrete input: the user-preference
formatter renders the preferences map in iteration order, and Go map
iteration order is unspecified — the two orders of one and the same
two-entry map (they are permutations of each other) yield different text
payloads, and hence different embedding requests. -/
theorem C5_counterexample :
    ([("budget", "medium"), ("style", "cultural")] : List (String × String)).Perm
        [("style", "cultural"), ("budget", "medium")]
      ∧ userPreferenceText ["art", "history", "food"]
            [("budget", "medium"), ("style", "cultural")]
          ≠ userPreferenceText ["art", "history", "food"]
            [("style", "cultural"), ("budget", "medium")]
      ∧ (GenerateUserPreferenceEmbedding esOk ["art", "history", "food"]
            [("budget", "medium"), ("style", "cultural")]).2
          ≠ (GenerateUserPreferenceEmbedding esOk ["art", "history", "food"]
            [("style", "cultural"), ("budget", "medium")]).2 := by
  refine ⟨List.Perm.swap _ _ _, by decide, by decide⟩

/-- C5 (amended): the POI, city and query formatters are deterministic in
their structured fields — the provider calls they issue do not depend on
the client or occasion — and the user-preference formatter is
deterministic only once the preference map's iteration sequence is fixed:
its single issued call carries `userPreferenceText` of the interests list
and that sequence. -/
theorem C5_amended_formatter_determinism {α ε : Type}
    (es es2 : GeminiEmbeddingClient α ε)
    (name description category country query : String)
    (interests : List String) (prefs : List (String × String)) :
    (GeneratePOIEmbedding es name description category).2
        = (GeneratePOIEmbedding es2 name description category).2
      ∧ (GenerateCityEmbedding es name country description).2
        = (GenerateCityEmbedding es2 name country description).2
      ∧ (GenerateQueryEmbedding es query).2 = (GenerateQueryEmbedding es2 query).2
      ∧ (GenerateUserPreferenceEmbedding es interests prefs).2
        = [⟨EmbeddingModel, userPreferenceText interests prefs, none⟩] := by
  refine ⟨?_, ?_, ?_, userPreferenceEmbedding_calls es interests prefs⟩
  · rw [poiEmbedding_calls, poiEmbedding_calls]
  · rw [cityEmbedding_calls, cityEmbedding_calls]
  · rw [queryEmbedding_calls, queryEmbedding_calls]

/-- C6: the POI and city formatters issue their embedding request for a
text payload that is a fixed function of the structured fields alone —
`poiText` respectively `cityText` — so two calls with identical fields
request an embedding for byte-identical text, whatever the client or
provider behaviour. -/
theorem C6_poi_city_payload_deterministic {α ε : Type}
    (es es2 : GeminiEmbeddingClient α ε) (name description category country : String) :
    ((GeneratePOIEmbedding es name description category).2.map EmbedCall.text
        = if name.trim = "" then [] else [poiText name description category])
      ∧ ((GenerateCityEmbedding es name country description).2.map EmbedCall.text
        = if name.trim = "" then [] else [cityText name country description])
      ∧ (GeneratePOIEmbedding es name description category).2.map EmbedCall.text
        = (GeneratePOIEmbedding es2 name description category).2.map EmbedCall.text
      ∧ (GenerateCityEmbedding es name country description).2.map EmbedCall.text
        = (GenerateCityEmbedding es2 name country description).2.map EmbedCall.text := by
  refine ⟨?_, ?_, ?_, ?_⟩
  · rw [poiEmbedding_calls]
    by_cases h : name.trim = ""
    · simp [h]
    · simp [h]
  · rw [cityEmbedding_calls]
    by_cases h : name.trim = ""
    · simp [h]
    · simp [h]
  · rw [poiEmbedding_calls, poiEmbedding_calls]
  · rw [cityEmbedding_calls, cityEmbedding_calls]

/-- An embedding client whose provider always fails with `boom`. -/
def esErr : GeminiEmbeddingClient Int Unit :=
  ⟨fun _ => .error "boom"⟩

/-- C3: the batch operation fails with `InvalidArgument` on an empty list
(before any provider call); on success it returns one vector per input text
after the full sequential pass; on failure it stops at the first failing
item, wrapping that item's error with its index, with a call trace covering
exactly the items up to and including the failing one. -/
theorem C3_batch_contract {α ε : Type} (es : GeminiEmbeddingClient α ε)
    (texts : List String) :
    (texts = [] → BatchGenerateEmbeddings es texts
        = (.error (.invalidArgument "no texts provided for batch embedding"), []))
      ∧ (∀ (vs : List (List α)) (calls : List (EmbedCall ε)),
          BatchGenerateEmbeddings es texts = (.ok vs, calls) →
            vs.length = texts.length ∧ calls = batchTrace es texts)
      ∧ (∀ (e : GenError) (calls : List (EmbedCall ε)),
          BatchGenerateEmbeddings es texts = (.error e, calls) → texts ≠ [] →
            ∃ j, ∃ hj : j < texts.length,
              (∀ k, ∀ hk : k < j,
                isOk (GenerateEmbedding es (texts.get ⟨k, Nat.lt_trans hk hj⟩) none).1
                  = true)
              ∧ (∃ e0, (GenerateEmbedding es (texts.get ⟨j, hj⟩) none).1 = .error e0
                  ∧ e = e0.wrap ("failed to generate embedding for text at index "
                        ++ toString j ++ ": "))
              ∧ calls = batchTrace es (texts.take (j + 1))) := by
  refine ⟨?_, ?_, ?_⟩
  · intro h
    subst h
    rfl
  · intro vs calls h
    unfold BatchGenerateEmbeddings at h
    by_cases ht : texts.length = 0
    · rw [if_pos ht] at h
      simp at h
    · rw [if_neg ht] at h
      exact batchLoop_ok h
  · intro e calls h hne
    unfold BatchGenerateEmbeddings at h
    by_cases ht : texts.length = 0
    · exact absurd (List.length_eq_zero.mp ht) hne
    · rw [if_neg ht] at h
      obtain ⟨j, hj, hpre, ⟨e0, hitem, hwrap⟩, htrace⟩ := batchLoop_error h
      refine ⟨j, hj, hpre, ⟨e0, hitem, ?_⟩, htrace⟩
      rw [hwrap, Nat.zero_add]

/-- Witness for C3 at the concrete batch `["a", "", "b"]` over a provider
that succeeds on every call: the batch fails at index 1 (the empty text,
rejected locally), item 0 succeeded before it, the batch error names index
1, and the trace covers exactly items 0 and 1. -/
theorem C3_batch_contract_witness :
    ∃ j, ∃ hj : j < (["a", "", "b"] : List String).length,
      (∀ k, ∀ hk : k < j,
        isOk (GenerateEmbedding esOk
            ((["a", "", "b"] : List String).get ⟨k, Nat.lt_trans hk hj⟩) none).1 = true)
      ∧ (∃ e0, (GenerateEmbedding esOk
              ((["a", "", "b"] : List String).get ⟨j, hj⟩) none).1 = .error e0
          ∧ GenError.invalidArgument
                "failed to generate embedding for text at index 1: text cannot be empty"
              = e0.wrap ("failed to generate embedding for text at index "
                    ++ toString j ++ ": "))
      ∧ [(⟨EmbeddingModel, "a", none⟩ : EmbedCall Unit)]
          = batchTrace esOk ((["a", "", "b"] : List String).take (j + 1)) :=
  (C3_batch_contract esOk ["a", "", "b"]).2.2
    (.invalidArgument
      "failed to generate embedding for text at index 1: text cannot be empty")
    [⟨EmbeddingModel, "a", none⟩] rfl (by decide)

/-- C8: `GenerateEmbedding` fails locally with `InvalidArgument` on empty
text; fails with an `UpstreamError` when the provider call errors, when the
response is nil or carries zero embeddings, and when the first embedding is
nil or carries zero values; and otherwise returns exactly the first
embedding's values. -/
theorem C8_generateEmbedding_contract {α ε : Type} (es : GeminiEmbeddingClient α ε)
    (text : String) (config : Option ε) :
    (text = "" → GenerateEmbedding es text config
        = (.error (.invalidArgument "text cannot be empty"), []))
      ∧ (∀ e, text ≠ "" → es.client ⟨EmbeddingModel, text, config⟩ = .error e →
          GenerateEmbedding es text config
            = (.error (.upstream ("failed to generate embedding: " ++ e)),
               [⟨EmbeddingModel, text, config⟩]))
      ∧ (text ≠ "" → es.client ⟨EmbeddingModel, text, config⟩ = .ok none →
          GenerateEmbedding es text config
            = (.error (.upstream "received empty embedding from API"),
               [⟨EmbeddingModel, text, config⟩]))
      ∧ (∀ resp, text ≠ "" → es.client ⟨EmbeddingModel, text, config⟩ = .ok (some resp) →
          resp.Embeddings = [] →
          GenerateEmbedding es text config
            = (.error (.upstream "received empty embedding from API"),
               [⟨EmbeddingModel, text, config⟩]))
      ∧ (∀ resp rest, text ≠ "" →
          es.client ⟨EmbeddingModel, text, config⟩ = .ok (some resp) →
          resp.Embeddings = none :: rest →
          GenerateEmbedding es text config
            = (.error (.upstream "received empty embedding values from API"),
               [⟨EmbeddingModel, text, config⟩]))
      ∧ (∀ resp ce rest, text ≠ "" →
          es.client ⟨EmbeddingModel, text, config⟩ = .ok (some resp) →
          resp.Embeddings = some ce :: rest → ce.Values = [] →
          GenerateEmbedding es text config
            = (.error (.upstream "received empty embedding values from API"),
               [⟨EmbeddingModel, text, config⟩]))
      ∧ (∀ resp ce rest v vs, text ≠ "" →
          es.client ⟨EmbeddingModel, text, config⟩ = .ok (some resp) →
          resp.Embeddings = some ce :: rest → ce.Values = v :: vs →
          GenerateEmbedding es text config
            = (.ok (v :: vs), [⟨EmbeddingModel, text, config⟩])) := by
  refine ⟨?_, ?_, ?_, ?_, ?_, ?_, ?_⟩
  · intro h
    subst h
    rfl
  · intro e ht hc
    simp [GenerateEmbedding, ht, hc]
  · intro ht hc
    simp [GenerateEmbedding, ht, hc]
  · intro resp ht hc he
    simp [GenerateEmbedding, ht, hc, he]
  · intro resp rest ht hc he
    simp [GenerateEmbedding, ht, hc, he]
  · intro resp ce rest ht hc he hv
    simp [GenerateEmbedding, ht, hc, he, hv]
  · intro resp ce rest v vs ht hc he hv
    simp [GenerateEmbedding, ht, hc, he, hv]

/-- Witness for C8 at concrete providers: empty text is rejected locally
with no provider call; a provider error, and a provider response with no
embeddings, each surface as the wrapped upstream error after one call; a
good response yields its first embedding's values. -/
theorem C8_generateEmbedding_contract_witness :
    GenerateEmbedding esOk "" none
        = (.error (.invalidArgument "text cannot be empty"), [])
      ∧ GenerateEmbedding esErr "hi" none
        = (.error (.upstream "failed to generate embedding: boom"),
           [⟨EmbeddingModel, "hi", none⟩])
      ∧ GenerateEmbedding esNoEmbeddings "hi" none
        = (.error (.upstream "received empty embedding from API"),
           [⟨EmbeddingModel, "hi", none⟩])
      ∧ GenerateEmbedding esOk "hi" none
        = (.ok [1], [⟨EmbeddingModel, "hi", none⟩]) := by
  refine ⟨(C8_generateEmbedding_contract esOk "" none).1 rfl,
    (C8_generateEmbedding_contract esErr "hi" none).2.1 "boom" (by decide) rfl,
    ?_, ?_⟩
  · exact (C8_generateEmbedding_contract esNoEmbeddings "hi" none).2.2.2.1
      ⟨[]⟩ (by decide) rfl rfl
  · exact (C8_generateEmbedding_contract esOk "hi" none).2.2.2.2.2.2
      sampleEmbedResponse ⟨[1]⟩ [] 1 [] (by decide) rfl rfl rfl

end GenaiSdk
